import Mathlib

/-!
Verification of the flashcard application's specification against its code.
The repository is a flashcard web application: a vanilla-JavaScript frontend
(`frontend/src/components/flashcard-creator.js`, `study-session.js`,
`frontend/src/services/api-client.js`, `frontend/src/main.js`) talking to a
FastAPI backend over HTTP.  The backend session engine itself
(`simple_server.py` / `backend/src/services/study_service.py`) is not part of
the available sources, only its callers, tests and documentation are; the
session engine is therefore modelled from the specification (definitions below
marked "Modelled from the spec"), while the frontend components are embedded
directly from their JavaScript sources.  Definitions come first, the theorems
settling the specification's claims follow.
-/

namespace SessionEngine

/-- Modelled from the spec: the error kinds of the session engine (spec §7).
The backend service that raises them is missing from the sources. -/
inductive EngineError where
  | EmptyCollection
  | SessionComplete
  | SessionNotFound
  | NotFound
deriving DecidableEq, Repr

/-- Modelled from the spec: a Flashcard record (spec §3).  Identifier, front
text, back text, and the cumulative study counters.  The creation timestamp
plays no role in any engine operation and is not represented. -/
structure Flashcard where
  id : Nat
  front : String
  back : String
  study_count : Nat
  correct_count : Nat
deriving DecidableEq, Repr

/-- Modelled from the spec: a recorded Response (spec §3): flashcard
identifier, boolean correctness, optional non-negative latency.  The response
timestamp plays no role in any engine operation and is not represented. -/
structure Response where
  flashcard_id : Nat
  is_correct : Bool
  response_time : Option ℚ
deriving DecidableEq, Repr

/-- Modelled from the spec: a StudySession (spec §3): ordered sequence of
flashcard identifiers fixed at creation, 0-based current position, ordered
sequence of recorded responses, and the completion flag set by `complete`. -/
structure StudySession where
  card_sequence : List Nat
  position : Nat
  responses : List Response
  completed : Bool
deriving DecidableEq, Repr

/-- Modelled from the spec: `start(available_flashcards)` (spec §4.1).  Fails
with `EmptyCollection` on an empty collection (creating no session);
otherwise creates a session over the identifiers of all supplied flashcards,
in the order given, at position 0 with no responses. -/
def start (cards : List Flashcard) : Except EngineError StudySession :=
  if cards.isEmpty then
    .error .EmptyCollection
  else
    .ok { card_sequence := cards.map Flashcard.id
          position := 0
          responses := []
          completed := false }

/-- Modelled from the spec: `current(session)` (spec §4.1).  Returns the
flashcard at `card_sequence[position]` (front and back included) when
`position < length`, looked up in the flashcard store; signals
`SessionComplete` when `position = length` and `NotFound` when the identifier
is missing from the store. -/
def currentCard (store : List Flashcard) (s : StudySession) :
    Except EngineError Flashcard :=
  match s.card_sequence[s.position]? with
  | none => .error .SessionComplete
  | some cid =>
    match store.find? (fun c => c.id == cid) with
    | some c => .ok c
    | none => .error .NotFound

/-- Modelled from the spec: `respond(session, is_correct, response_time)`
(spec §4.1).  When the session is not complete, appends a Response for the
current card and advances the position by exactly one; signals
`SessionComplete` when called after the last card was already answered, never
letting the position exceed the sequence length.  The flashcard-store counter
increment is a side effect on the store and is tracked separately by
`bumpCounters`. -/
def respond (s : StudySession) (is_correct : Bool)
    (response_time : Option ℚ) : Except EngineError StudySession :=
  match s.card_sequence[s.position]? with
  | none => .error .SessionComplete
  | some cid =>
    .ok { s with
          responses := s.responses ++
            [{ flashcard_id := cid
               is_correct := is_correct
               response_time := response_time }]
          position := s.position + 1 }

/-- Modelled from the spec: the flashcard-store counter update performed by
`respond` (spec §4.1): increments the answered card's `study_count`, and its
`correct_count` when the response was correct. -/
def bumpCounters (store : List Flashcard) (cid : Nat) (is_correct : Bool) :
    List Flashcard :=
  store.map fun c =>
    if c.id == cid then
      { c with
        study_count := c.study_count + 1
        correct_count := c.correct_count + (if is_correct then 1 else 0) }
    else c

/-- Modelled from the spec: the progress snapshot (spec §4.1 `progress`). -/
structure Progress where
  current_card : Nat
  total_cards : Nat
  cards_completed : Nat
  correct_responses : Nat
  incorrect_responses : Nat
  accuracy_percentage : ℚ
deriving DecidableEq, Repr

/-- Modelled from the spec: `progress(session)` (spec §4.1), a pure derived
read: `current_card = position + 1` clamped to the length, `total_cards`,
`cards_completed = length(responses)`, `correct_responses` the count of
correct responses, `incorrect_responses` their difference, and
`accuracy_percentage = correct_responses / cards_completed * 100` when
`cards_completed > 0`, else 0. -/
def progress (s : StudySession) : Progress :=
  let total := s.card_sequence.length
  let completed := s.responses.length
  let correct := (s.responses.filter fun r => r.is_correct).length
  { current_card := min (s.position + 1) total
    total_cards := total
    cards_completed := completed
    correct_responses := correct
    incorrect_responses := completed - correct
    accuracy_percentage :=
      if completed > 0 then (correct : ℚ) / (completed : ℚ) * 100 else 0 }

/-- Modelled from the spec: `complete(session)` (spec §4.1).  Precondition
`position = length(card_sequence)`; marks the completion flag (idempotently)
and returns the final progress snapshot.  The spec does not assign an error
kind to a premature call, so the guard failure is `none`. -/
def complete (s : StudySession) :
    Option (StudySession × Progress) :=
  if s.position = s.card_sequence.length then
    some ({ s with completed := true }, progress s)
  else
    none

/-- Modelled from the spec: the observable session state (spec §4.1 state
machine): a session is in progress while `position < length(card_sequence)`
and complete once the position has reached the length. -/
inductive SessionState where
  | inProgress
  | complete
deriving DecidableEq, Repr

/-- Modelled from the spec: which state a session is observed in. -/
def sessionState (s : StudySession) : SessionState :=
  if s.position < s.card_sequence.length then .inProgress else .complete

/-- The sessions reachable by any sequence of successful `start`, `respond`
and `complete` operations. -/
inductive Reachable : StudySession → Prop where
  | start_ok (cards : List Flashcard) (s : StudySession) :
      start cards = .ok s → Reachable s
  | respond_ok (s t : StudySession) (b : Bool) (rt : Option ℚ) :
      Reachable s → respond s b rt = .ok t → Reachable t
  | complete_ok (s t : StudySession) (p : Progress) :
      Reachable s → complete s = some (t, p) → Reachable t

/-- Runs a sequence of `respond` calls with the given correctness values,
stopping at the first error.  Used to state the trace properties of the
engine. -/
def runResponds (s : StudySession) (bs : List Bool) :
    Except EngineError StudySession :=
  match bs with
  | [] => .ok s
  | b :: rest =>
    match respond s b none with
    | .ok t => runResponds t rest
    | .error e => .error e

end SessionEngine

/-- Modelled from the spec: the backend study service is missing from the
sources; its `EmptyCollection` failure surfaces to the HTTP client as an
error whose detail message is the one the caller tests for
(`study-session.js` line 140). -/
def SessionEngine.emptyCollectionDetail : String := "No flashcards available"

section Fixtures

open SessionEngine

/-- A sample flashcard used to instantiate the theorems with hypotheses. -/
def cardHello : Flashcard :=
  { id := 1, front := "Hello", back := "Hola"
    study_count := 0, correct_count := 0 }

/-- A second sample flashcard. -/
def cardBye : Flashcard :=
  { id := 2, front := "Goodbye", back := "Adios"
    study_count := 0, correct_count := 0 }

/-- A third sample flashcard. -/
def cardThanks : Flashcard :=
  { id := 3, front := "Thanks", back := "Gracias"
    study_count := 0, correct_count := 0 }

/-- The fresh session produced by `start` on the one-card collection. -/
def sessionHello : StudySession :=
  { card_sequence := [1], position := 0, responses := [], completed := false }

/-- The one-card session after its single card was answered correctly. -/
def sessionHelloAnswered : StudySession :=
  { card_sequence := [1]
    position := 1
    responses :=
      [{ flashcard_id := 1, is_correct := true, response_time := none }]
    completed := false }

/-- A session over two cards whose last card has just been answered. -/
def sessionDone : StudySession :=
  { card_sequence := [1, 2]
    position := 2
    responses :=
      [{ flashcard_id := 1, is_correct := true, response_time := none },
       { flashcard_id := 2, is_correct := false, response_time := none }]
    completed := false }

end Fixtures

/-- Scenario C of the spec run through the modelled engine: a session over
three cards answered `[true, false, true]`. -/
def scenarioC : Except SessionEngine.EngineError SessionEngine.StudySession :=
  match SessionEngine.start [cardHello, cardBye, cardThanks] with
  | .ok s => SessionEngine.runResponds s [true, false, true]
  | .error e => .error e

namespace StudySessionUI

/-- The `study-screen` panes rendered by the StudySession component
(`study-session.js` `render`, lines 30-88): the start screen, the running
session screen, the completion screen, and the `study-error-screen` shown
when there are no flashcards. -/
inductive Screen where
  | startScreen
  | sessionScreen
  | completeScreen
  | errorScreen
deriving DecidableEq, Repr

/-- The heading of the `study-error-screen` (`study-session.js` line 81). -/
def errorScreenHeading : String := "No Flashcards Available"

/-- The body text of the `study-error-screen` (`study-session.js` line 82),
prompting the user to create flashcards before studying. -/
def errorScreenMessage : String :=
  "Create some flashcards first before starting a study session."

/-- Whether the character list `l` begins with the character list `pat`. -/
def leadsWith : List Char → List Char → Bool
  | _, [] => true
  | [], _ :: _ => false
  | c :: cs, p :: ps => c == p && leadsWith cs ps

/-- Whether the character list `pat` occurs contiguously inside `l`. -/
def containsSeq (l pat : List Char) : Bool :=
  match l with
  | [] => pat.isEmpty
  | _ :: rest => leadsWith l pat || containsSeq rest pat

/-- Substring containment, embedding JavaScript
`String.prototype.includes`: the search string occurs contiguously in `s`. -/
def includesStr (s pattern : String) : Bool :=
  containsSeq s.data pattern.data

/-- What the component does on a failed start (`startStudySession`,
`study-session.js` lines 124-146): either a screen is shown or a generic
alert message is raised. -/
inductive StartFailureView where
  | screen (sc : Screen)
  | alertMessage (text : String)
deriving DecidableEq, Repr

/-- Embeds the catch branch of `startStudySession` (`study-session.js` lines
138-145): when the error message includes "No flashcards available" the
component shows the `study-error-screen` (the "no flashcards yet" state, with
a button leading to flashcard creation) instead of entering a session;
otherwise it raises a generic alert. -/
def handleStartFailure (message : String) : StartFailureView :=
  if includesStr message "No flashcards available" then
    .screen Screen.errorScreen
  else
    .alertMessage "Failed to start study session. Please try again."

/-- What the card area of the session screen displays: the side label, the
shown text, and whether the card is revealed. -/
structure CardView where
  sideLabel : String
  text : String
  revealed : Bool
deriving DecidableEq, Repr

/-- Embeds `displayFlashcard` (`study-session.js` lines 172-192): the front
side of the fetched current flashcard is shown, unrevealed. -/
def displayFlashcard (fc : SessionEngine.Flashcard) : CardView :=
  { sideLabel := "Front:", text := fc.front, revealed := false }

/-- Embeds `showAnswer` (`study-session.js` lines 197-215): the back side is
read off `this.currentFlashcard` — the result already fetched by
`loadCurrentFlashcard` — without any further API call, and shown revealed. -/
def showAnswer (fc : SessionEngine.Flashcard) : CardView :=
  { sideLabel := "Back:", text := fc.back, revealed := true }

/-- The JSON body posted by `submitResponse` (`study-session.js` lines
224-227): the correctness flag and the elapsed response time in seconds. -/
structure RespondBody where
  is_correct : Bool
  response_time_seconds : ℚ
deriving DecidableEq, Repr

/-- The JSON field names of the `submitResponse` body, in source order. -/
def respondBodyFields : List String :=
  ["is_correct", "response_time_seconds"]

/-- Embeds `submitResponse` (`study-session.js` lines 220-236): given the
wall-clock time `now` and the `startTime` recorded when the card was
displayed, it performs exactly one network call — a POST of the body
`RespondBody` with the elapsed seconds `(now - startTime) / 1000` to
`/api/study/<sessionId>/respond`; `ApiClient.recordStudyResult` is never
invoked. -/
def submitResponse (sessionId : String) (isCorrect : Bool)
    (now startTime : ℚ) : List (String × RespondBody) :=
  [("/api/study/" ++ sessionId ++ "/respond",
    { is_correct := isCorrect
      response_time_seconds := (now - startTime) / 1000 })]

end StudySessionUI

namespace FlashcardCreator

/-- Whitespace trimming on the character list: drops leading and trailing
whitespace characters. -/
def trimChars (l : List Char) : List Char :=
  ((l.dropWhile Char.isWhitespace).reverse.dropWhile Char.isWhitespace).reverse

/-- Embeds JavaScript `String.prototype.trim` on the string's character
list. -/
def trimStr (s : String) : String :=
  { data := trimChars s.data }

/-- Embeds `validateField` (`flashcard-creator.js` lines 252-274): the field
value is trimmed; an empty trimmed value or a trimmed value longer than 500
characters yields the displayed error message, anything else is valid. -/
def fieldError (fieldLabel value : String) : Option String :=
  if trimStr value = "" then
    some (fieldLabel ++ " content is required")
  else if (trimStr value).length > 500 then
    some (fieldLabel ++ " content is too long (max 500 characters)")
  else
    none

/-- Embeds `validateForm` (`flashcard-creator.js` lines 233-247): the form is
valid when both the front and the back field validate. -/
def validateForm (front back : String) : Bool :=
  (fieldError "Front" front).isNone && (fieldError "Back" back).isNone

/-- Embeds `handleSubmit` (`flashcard-creator.js` lines 181-216): when
validation fails the handler returns before any create request is made
(`none`); otherwise the create request carries the trimmed front and back
text. -/
def handleSubmit (front back : String) : Option (String × String) :=
  if validateForm front back then
    some (trimStr front, trimStr back)
  else
    none

end FlashcardCreator

namespace ApiClient

/-- The structured error thrown by the API client (`api-client.js`
`ApiError`, lines 203-233): an HTTP status (0 for network-level failures)
and a message. -/
structure ApiError where
  status : Nat
  message : String
deriving DecidableEq, Repr

/-- Embeds `ApiError.isNetworkError` (`api-client.js` 215-217):
`status === 0`. -/
def ApiError.isNetworkError (e : ApiError) : Bool :=
  e.status == 0

/-- Embeds `ApiError.isClientError` (`api-client.js` 223-225):
`status >= 400 && status < 500`. -/
def ApiError.isClientError (e : ApiError) : Bool :=
  decide (400 ≤ e.status) && decide (e.status < 500)

/-- Embeds `ApiError.isServerError` (`api-client.js` 231-233):
`status >= 500`. -/
def ApiError.isServerError (e : ApiError) : Bool :=
  decide (500 ≤ e.status)

/-- What the `fetch` call inside `request` can come back with: an HTTP
response — status code, whether its body parses as JSON, the parsed error
`detail` field when present, the status text, the parsed body — or a thrown
network-level error (unreachable server etc.). -/
inductive FetchOutcome where
  | response (status : Nat) (jsonOk : Bool) (detail : Option String)
      (statusText : String) (body : String)
  | networkError (errText : String)
deriving DecidableEq, Repr

/-- The message used for errors that are not HTTP error responses
(`api-client.js` line 47). -/
def networkErrorMessage : String := "Network error or server unavailable"

/-- The message of an HTTP error response: `errorData.detail ||
response.statusText` (`api-client.js` line 33) — the status text when the
detail field is absent or empty (JavaScript falsiness). -/
def errorDetail (detail : Option String) (statusText : String) : String :=
  match detail with
  | some d => if d = "" then statusText else d
  | none => statusText

/-- Embeds `ApiClient.request` (`api-client.js` lines 16-51).  A response
with a non-ok status (outside 200-299) is turned into an `ApiError` carrying
that status; a thrown `fetch` error — and a JSON-parsing failure of an ok
response, which the surrounding try/catch also reaches — is turned into an
`ApiError` with status 0; no raw error escapes. -/
def request (out : FetchOutcome) : Except ApiError String :=
  match out with
  | .networkError _ => .error { status := 0, message := networkErrorMessage }
  | .response status jsonOk detail statusText body =>
    if 200 ≤ status ∧ status < 300 then
      if jsonOk then
        .ok body
      else
        .error { status := 0, message := networkErrorMessage }
    else
      .error { status := status, message := errorDetail detail statusText }

/-- The JSON body posted by `recordStudyResult` (`api-client.js` lines
173-177): flashcard identifier, correctness, and the optional response time
in milliseconds, whose JS parameter defaults to `null` (`none`). -/
structure ResultBody where
  flashcard_id : String
  correct : Bool
  response_time_ms : Option ℚ
deriving DecidableEq, Repr

/-- The JSON field names of the `recordStudyResult` body, in source order. -/
def resultBodyFields : List String :=
  ["flashcard_id", "correct", "response_time_ms"]

/-- Embeds `ApiClient.recordStudyResult` (`api-client.js` lines 172-178): a
POST of the body `ResultBody` to `/api/study/session/<sessionId>/result`. -/
def recordStudyResult (sessionId flashcardId : String) (correct : Bool)
    (responseTimeMs : Option ℚ) : String × ResultBody :=
  ("/api/study/session/" ++ sessionId ++ "/result",
    { flashcard_id := flashcardId
      correct := correct
      response_time_ms := responseTimeMs })

end ApiClient

namespace SessionEngine

/-- The engine's core invariant, established by induction over reachability:
the response list stays parallel to the position, and the position never
exceeds the length of the card sequence. -/
theorem reachable_invariant (s : StudySession) (h : Reachable s) :
    s.responses.length = s.position ∧
      s.position ≤ s.card_sequence.length := by
  induction h with
  | start_ok cards s hs =>
    unfold start at hs
    split at hs
    · exact absurd hs (by simp)
    · cases hs
      simp
  | respond_ok s t b rt hr hresp ih =>
    unfold respond at hresp
    cases hget : s.card_sequence[s.position]? with
    | none => rw [hget] at hresp; exact absurd hresp (by simp)
    | some cid =>
      rw [hget] at hresp
      cases hresp
      have hlt : s.position < s.card_sequence.length := by
        by_contra hge
        rw [List.getElem?_eq_none (by omega)] at hget
        exact absurd hget (by simp)
      constructor
      · simpa using ih.1
      · simpa using hlt
  | complete_ok s t p hr hc ih =>
    unfold complete at hc
    split at hc
    · cases hc
      simpa using ih
    · exact absurd hc (by simp)

/-- A successful `respond` advances the position by one, appends one
response, and leaves the card sequence unchanged. -/
theorem respond_ok_fields (s t : StudySession) (b : Bool) (rt : Option ℚ)
    (h : respond s b rt = .ok t) :
    t.position = s.position + 1 ∧
      t.card_sequence = s.card_sequence ∧
      t.responses.length = s.responses.length + 1 ∧
      s.position < s.card_sequence.length := by
  unfold respond at h
  cases hget : s.card_sequence[s.position]? with
  | none => rw [hget] at h; exact absurd h (by simp)
  | some cid =>
    rw [hget] at h
    cases h
    have hlt : s.position < s.card_sequence.length := by
      by_contra hge
      rw [List.getElem?_eq_none (by omega)] at hget
      exact absurd hget (by simp)
    refine ⟨rfl, rfl, by simp, hlt⟩

/-- `respond` fails with `SessionComplete` exactly when the position has
reached the end of the card sequence. -/
theorem respond_complete_iff (s : StudySession) (b : Bool) (rt : Option ℚ) :
    respond s b rt = .error .SessionComplete ↔
      s.position = s.card_sequence.length ∨
        s.card_sequence.length < s.position := by
  unfold respond
  cases hget : s.card_sequence[s.position]? with
  | none =>
    have := List.getElem?_eq_none_iff.mp hget
    simp only [true_iff]
    omega
  | some cid =>
    have hlt : s.position < s.card_sequence.length := by
      by_contra hge
      rw [List.getElem?_eq_none (by omega)] at hget
      exact absurd hget (by simp)
    constructor
    · intro h
      exact absurd h (by simp)
    · intro h
      omega

/-- As long as there is room, a run of `respond` calls succeeds and advances
the position by exactly the number of calls, without touching the card
sequence. -/
theorem runResponds_ok (bs : List Bool) (s : StudySession)
    (h : s.position + bs.length ≤ s.card_sequence.length) :
    ∃ t, runResponds s bs = .ok t ∧
      t.position = s.position + bs.length ∧
      t.card_sequence = s.card_sequence := by
  induction bs generalizing s with
  | nil => exact ⟨s, rfl, by simp, rfl⟩
  | cons b rest ih =>
    have hlt : s.position < s.card_sequence.length := by
      simp at h; omega
    have hget : ∃ cid, s.card_sequence[s.position]? = some cid :=
      ⟨s.card_sequence[s.position], List.getElem?_eq_getElem hlt⟩
    obtain ⟨cid, hcid⟩ := hget
    have hresp : respond s b none = .ok
        { s with
          responses := s.responses ++
            [{ flashcard_id := cid
               is_correct := b
               response_time := none }]
          position := s.position + 1 } := by
      unfold respond
      rw [hcid]
    obtain ⟨t, ht, htpos, htseq⟩ := ih
      { s with
        responses := s.responses ++
          [{ flashcard_id := cid
             is_correct := b
             response_time := none }]
        position := s.position + 1 }
      (by simp at h ⊢; omega)
    refine ⟨t, ?_, ?_, htseq⟩
    · unfold runResponds
      rw [hresp]
      exact ht
    · simp at htpos ⊢
      omega

end SessionEngine

namespace FlashcardCreator

/-- A field validates exactly when its trimmed value is non-empty and at most
500 characters long. -/
theorem fieldError_none_iff (fieldLabel value : String) :
    fieldError fieldLabel value = none ↔
      trimStr value ≠ "" ∧ (trimStr value).length ≤ 500 := by
  unfold fieldError
  constructor
  · intro h
    by_cases h1 : trimStr value = ""
    · rw [if_pos h1] at h
      exact absurd h (by simp)
    · rw [if_neg h1] at h
      by_cases h2 : (trimStr value).length > 500
      · rw [if_pos h2] at h
        exact absurd h (by simp)
      · exact ⟨h1, by omega⟩
  · intro hc
    rw [if_neg hc.1, if_neg (by omega)]

end FlashcardCreator

/-- No `/respond` endpoint path coincides with a `/result` endpoint path,
whatever the interpolated session identifiers: the paths end in different
characters. -/
theorem append_respond_ne_result (a b : String) :
    a ++ "/respond" ≠ b ++ "/result" := by
  intro h
  have hd : (a ++ "/respond").data = (b ++ "/result").data := by rw [h]
  rw [String.data_append, String.data_append] at hd
  have h1 : (a.data ++ "/respond".data).getLast? = some 'd' := by
    rw [List.getLast?_append_of_ne_nil _ (by decide)]
    decide
  have h2 : (b.data ++ "/result".data).getLast? = some 't' := by
    rw [List.getLast?_append_of_ne_nil _ (by decide)]
    decide
  rw [hd, h2] at h1
  exact absurd h1 (by decide)

/-- C1: for every session reachable by any sequence of start/respond/complete
operations, the position satisfies `0 ≤ position ≤ length(card_sequence)`
(the lower bound holds because positions are natural numbers), and the
session is observed in the complete state exactly when the position equals
the length of the card sequence. -/
theorem claim1_position_invariant (s : SessionEngine.StudySession)
    (h : SessionEngine.Reachable s) :
    s.position ≤ s.card_sequence.length ∧
      (SessionEngine.sessionState s = SessionEngine.SessionState.complete ↔
        s.position = s.card_sequence.length) := by
  have hinv := SessionEngine.reachable_invariant s h
  refine ⟨hinv.2, ?_⟩
  unfold SessionEngine.sessionState
  split
  · constructor
    · intro hc
      exact absurd hc (by simp)
    · intro he
      omega
  · constructor
    · intro _
      omega
    · intro _
      rfl

/-- C1 witness: the invariant instantiated at the session freshly started
over the one-card collection. -/
theorem claim1_position_invariant_witness :
    sessionHello.position ≤ sessionHello.card_sequence.length ∧
      (SessionEngine.sessionState sessionHello =
          SessionEngine.SessionState.complete ↔
        sessionHello.position = sessionHello.card_sequence.length) :=
  claim1_position_invariant sessionHello
    (SessionEngine.Reachable.start_ok [cardHello] sessionHello rfl)

/-- C2: starting over a collection of `total_cards` flashcards, every run of
`total_cards` respond calls succeeds (a failed intermediate call would make
the whole run fail), ends with the position equal to the sequence length, and
the next respond call fails with `SessionComplete` while the position stays
at the length rather than moving past it. -/
theorem claim2_respond_overflow (cards : List SessionEngine.Flashcard)
    (s0 : SessionEngine.StudySession)
    (h0 : SessionEngine.start cards = .ok s0)
    (bs : List Bool) (hlen : bs.length = cards.length) :
    ∃ t, SessionEngine.runResponds s0 bs = .ok t ∧
      t.position = t.card_sequence.length ∧
      ∀ b rt, SessionEngine.respond t b rt =
        .error SessionEngine.EngineError.SessionComplete := by
  unfold SessionEngine.start at h0
  split at h0
  · exact absurd h0 (by simp)
  · cases h0
    obtain ⟨t, ht, htpos, htseq⟩ :=
      SessionEngine.runResponds_ok bs
        { card_sequence := cards.map SessionEngine.Flashcard.id
          position := 0
          responses := []
          completed := false }
        (by simp [hlen])
    refine ⟨t, ht, ?_, ?_⟩
    · simp [htseq] at htpos ⊢
      omega
    · intro b rt
      rw [SessionEngine.respond_complete_iff]
      left
      simp [htseq] at htpos ⊢
      omega

/-- C2 witness: scenario D of the spec with two cards and two successful
responds; the third respond call fails with `SessionComplete`. -/
theorem claim2_respond_overflow_witness :
    ∃ t, SessionEngine.runResponds
        { card_sequence := [1, 2], position := 0, responses := []
          completed := false } [true, false] = .ok t ∧
      t.position = t.card_sequence.length ∧
      ∀ b rt, SessionEngine.respond t b rt =
        .error SessionEngine.EngineError.SessionComplete :=
  claim2_respond_overflow [cardHello, cardBye]
    { card_sequence := [1, 2], position := 0, responses := []
      completed := false } rfl [true, false] rfl

/-- C3: immediately after any successful start, respond or complete call (the
reachable sessions), the progress snapshot's `cards_completed` equals the
length of the recorded response list, which equals the position; the response
list is therefore never longer than the card sequence. -/
theorem claim3_responses_parallel (s : SessionEngine.StudySession)
    (h : SessionEngine.Reachable s) :
    (SessionEngine.progress s).cards_completed = s.responses.length ∧
      s.responses.length = s.position ∧
      s.responses.length ≤ s.card_sequence.length := by
  have hinv := SessionEngine.reachable_invariant s h
  exact ⟨rfl, hinv.1, by omega⟩

/-- C3 witness: the parallelism property instantiated at a session obtained
by starting over one card and answering it correctly. -/
theorem claim3_responses_parallel_witness :
    (SessionEngine.progress sessionHelloAnswered).cards_completed =
        sessionHelloAnswered.responses.length ∧
      sessionHelloAnswered.responses.length = sessionHelloAnswered.position ∧
      sessionHelloAnswered.responses.length ≤
        sessionHelloAnswered.card_sequence.length :=
  claim3_responses_parallel sessionHelloAnswered
    (SessionEngine.Reachable.respond_ok sessionHello sessionHelloAnswered
      true none
      (SessionEngine.Reachable.start_ok [cardHello] sessionHello rfl) rfl)

/-- C4: for every session the progress snapshot reports
`incorrect_responses = cards_completed - correct_responses` and an accuracy
of 0 when nothing is completed and of
`100 * correct_responses / cards_completed` otherwise; in particular the
three-card session answered `[true, false, true]` ends at exactly 200/3
percent — approximately 66.67 — with 2 correct and 1 incorrect response. -/
theorem claim4_accuracy :
    (∀ s : SessionEngine.StudySession,
      (SessionEngine.progress s).incorrect_responses =
          (SessionEngine.progress s).cards_completed -
            (SessionEngine.progress s).correct_responses ∧
        (SessionEngine.progress s).accuracy_percentage =
          (if (SessionEngine.progress s).cards_completed = 0 then 0
           else
             100 * ((SessionEngine.progress s).correct_responses : ℚ) /
               ((SessionEngine.progress s).cards_completed : ℚ))) ∧
      ∃ t, scenarioC = .ok t ∧
        (SessionEngine.progress t).correct_responses = 2 ∧
        (SessionEngine.progress t).incorrect_responses = 1 ∧
        (SessionEngine.progress t).accuracy_percentage = 200 / 3 ∧
        |(SessionEngine.progress t).accuracy_percentage - 6667 / 100| <
          1 / 100 := by
  constructor
  · intro s
    refine ⟨rfl, ?_⟩
    have hacc : (SessionEngine.progress s).accuracy_percentage =
        if s.responses.length > 0 then
          (((s.responses.filter fun r => r.is_correct).length : ℚ) /
              (s.responses.length : ℚ)) * 100
        else 0 := rfl
    have hcc : (SessionEngine.progress s).cards_completed =
        s.responses.length := rfl
    have hcr : (SessionEngine.progress s).correct_responses =
        (s.responses.filter fun r => r.is_correct).length := rfl
    rw [hacc, hcc, hcr]
    by_cases hz : s.responses.length = 0
    · simp [hz]
    · rw [if_pos (Nat.pos_of_ne_zero hz), if_neg hz]
      ring
  · refine ⟨{ card_sequence := [1, 2, 3]
              position := 3
              responses :=
                [{ flashcard_id := 1, is_correct := true
                   response_time := none },
                 { flashcard_id := 2, is_correct := false
                   response_time := none },
                 { flashcard_id := 3, is_correct := true
                   response_time := none }]
              completed := false }, rfl, rfl, rfl, ?_, ?_⟩
    · have hval : (SessionEngine.progress
          { card_sequence := [1, 2, 3]
            position := 3
            responses :=
              [{ flashcard_id := 1, is_correct := true
                 response_time := none },
               { flashcard_id := 2, is_correct := false
                 response_time := none },
               { flashcard_id := 3, is_correct := true
                 response_time := none }]
            completed := false }).accuracy_percentage =
          (((2 : ℕ) : ℚ) / ((3 : ℕ) : ℚ)) * 100 := rfl
      rw [hval]
      norm_num
    · have hval : (SessionEngine.progress
          { card_sequence := [1, 2, 3]
            position := 3
            responses :=
              [{ flashcard_id := 1, is_correct := true
                 response_time := none },
               { flashcard_id := 2, is_correct := false
                 response_time := none },
               { flashcard_id := 3, is_correct := true
                 response_time := none }]
            completed := false }).accuracy_percentage =
          (((2 : ℕ) : ℚ) / ((3 : ℕ) : ℚ)) * 100 := rfl
      rw [hval, abs_sub_lt_iff]
      constructor <;> norm_num

/-- C7: on any already-complete session (position at the end of the card
sequence), `complete` succeeds, and calling it a second time returns the very
same session state and the very same final progress snapshot: an idempotent
no-op with no further mutation. -/
theorem claim7_complete_idempotent (s : SessionEngine.StudySession)
    (h : s.position = s.card_sequence.length) :
    ∃ t p, SessionEngine.complete s = some (t, p) ∧
      SessionEngine.complete t = some (t, p) := by
  refine ⟨{ s with completed := true }, SessionEngine.progress s, ?_, ?_⟩
  · unfold SessionEngine.complete
    rw [if_pos h]
  · unfold SessionEngine.complete
    rw [if_pos h]
    rfl

/-- C7 witness: idempotence of `complete` at a concrete two-card session
whose last card has been answered. -/
theorem claim7_complete_idempotent_witness :
    ∃ t p, SessionEngine.complete sessionDone = some (t, p) ∧
      SessionEngine.complete t = some (t, p) :=
  claim7_complete_idempotent sessionDone rfl

/-- C5: `start` on the empty collection fails with `EmptyCollection` and
creates no session, and the study-session component, on receiving that
failure, shows the "no flashcards yet" error screen (headed "No Flashcards
Available" and prompting the user to create flashcards first) rather than
entering a study session. -/
theorem claim5_empty_collection :
    SessionEngine.start ([] : List SessionEngine.Flashcard) =
        .error SessionEngine.EngineError.EmptyCollection ∧
      StudySessionUI.handleStartFailure SessionEngine.emptyCollectionDetail =
        .screen StudySessionUI.Screen.errorScreen ∧
      StudySessionUI.errorScreenHeading = "No Flashcards Available" ∧
      StudySessionUI.errorScreenMessage =
        "Create some flashcards first before starting a study session." :=
  ⟨rfl, by decide, rfl, rfl⟩

/-- C6: for a session whose position is inside the card sequence and a store
holding the referenced flashcard, `current` returns that flashcard — the one
whose identifier sits at `card_sequence[position]` — with both its front and
its back text; the component first displays the front, and `showAnswer`
produces the back view purely from that already-fetched flashcard. -/
theorem claim6_current_front_back (store : List SessionEngine.Flashcard)
    (s : SessionEngine.StudySession) (c : SessionEngine.Flashcard)
    (hlt : s.position < s.card_sequence.length)
    (hfind : store.find?
        (fun fc => fc.id == s.card_sequence[s.position]) = some c) :
    SessionEngine.currentCard store s = .ok c ∧
      c.id = s.card_sequence[s.position] ∧
      StudySessionUI.displayFlashcard c =
        { sideLabel := "Front:", text := c.front, revealed := false } ∧
      StudySessionUI.showAnswer c =
        { sideLabel := "Back:", text := c.back, revealed := true } := by
  have hget : s.card_sequence[s.position]? =
      some s.card_sequence[s.position] := List.getElem?_eq_getElem hlt
  refine ⟨?_, ?_, rfl, rfl⟩
  · simp only [SessionEngine.currentCard, hget, hfind]
  · have hp := List.find?_some hfind
    simpa using hp

/-- C6 witness: the property instantiated at the fresh one-card session and
the store holding its card. -/
theorem claim6_current_front_back_witness :
    SessionEngine.currentCard [cardHello] sessionHello = .ok cardHello ∧
      cardHello.id = 1 ∧
      StudySessionUI.displayFlashcard cardHello =
        { sideLabel := "Front:", text := cardHello.front
          revealed := false } ∧
      StudySessionUI.showAnswer cardHello =
        { sideLabel := "Back:", text := cardHello.back, revealed := true } :=
  claim6_current_front_back [cardHello] sessionHello cardHello
    (by decide) (by decide)

/-- C8: a create request is made exactly when both fields are non-empty after
trimming and their trimmed text is at most 500 characters; the request always
carries the trimmed front and back text; and an input that is empty or
whitespace-only after trimming is rejected with a field validation error and
no create request is made. -/
theorem claim8_validation (front back : String) :
    (FlashcardCreator.handleSubmit front back =
        some (FlashcardCreator.trimStr front,
          FlashcardCreator.trimStr back) ↔
      FlashcardCreator.trimStr front ≠ "" ∧
        (FlashcardCreator.trimStr front).length ≤ 500 ∧
        FlashcardCreator.trimStr back ≠ "" ∧
        (FlashcardCreator.trimStr back).length ≤ 500) ∧
      (∀ f b, FlashcardCreator.handleSubmit front back = some (f, b) →
        f = FlashcardCreator.trimStr front ∧
          b = FlashcardCreator.trimStr back) ∧
      (FlashcardCreator.trimStr front = "" →
        FlashcardCreator.fieldError "Front" front =
            some "Front content is required" ∧
          FlashcardCreator.handleSubmit front back = none) ∧
      (FlashcardCreator.trimStr back = "" →
        FlashcardCreator.fieldError "Back" back =
            some "Back content is required" ∧
          FlashcardCreator.handleSubmit front back = none) := by
  have hval : FlashcardCreator.validateForm front back = true ↔
      (FlashcardCreator.trimStr front ≠ "" ∧
          (FlashcardCreator.trimStr front).length ≤ 500) ∧
        FlashcardCreator.trimStr back ≠ "" ∧
          (FlashcardCreator.trimStr back).length ≤ 500 := by
    unfold FlashcardCreator.validateForm
    rw [Bool.and_eq_true, Option.isNone_iff_eq_none,
      Option.isNone_iff_eq_none, FlashcardCreator.fieldError_none_iff,
      FlashcardCreator.fieldError_none_iff]
  refine ⟨?_, ?_, ?_, ?_⟩
  · unfold FlashcardCreator.handleSubmit
    constructor
    · intro h
      split_ifs at h with hv
      have := hval.mp hv
      exact ⟨this.1.1, this.1.2, this.2.1, this.2.2⟩
    · intro hc
      rw [if_pos (hval.mpr ⟨⟨hc.1, hc.2.1⟩, hc.2.2.1, hc.2.2.2⟩)]
  · intro f b hsome
    unfold FlashcardCreator.handleSubmit at hsome
    split_ifs at hsome
    cases hsome
    exact ⟨rfl, rfl⟩
  · intro hempty
    refine ⟨?_, ?_⟩
    · unfold FlashcardCreator.fieldError
      rw [if_pos hempty]
      rfl
    · unfold FlashcardCreator.handleSubmit
      rw [if_neg]
      intro hv
      exact absurd hempty (hval.mp hv).1.1
  · intro hempty
    refine ⟨?_, ?_⟩
    · unfold FlashcardCreator.fieldError
      rw [if_pos hempty]
      rfl
    · unfold FlashcardCreator.handleSubmit
      rw [if_neg]
      intro hv
      exact absurd hempty (hval.mp hv).2.1

/-- C8 witness: a padded valid input is submitted trimmed, and a
whitespace-only front field makes no request. -/
theorem claim8_validation_witness :
    FlashcardCreator.handleSubmit "  Hello  " " Hola " =
        some (FlashcardCreator.trimStr "  Hello  ",
          FlashcardCreator.trimStr " Hola ") ∧
      FlashcardCreator.handleSubmit "   " "Hola" = none :=
  ⟨(claim8_validation "  Hello  " " Hola ").1.mpr
      ⟨by decide, by decide, by decide, by decide⟩,
    (((claim8_validation "   " "Hola").2.2.1) (by decide)).2⟩

/-- C9: every failure of `request` surfaces as an `ApiError`: a non-ok HTTP
response yields an `ApiError` carrying that response's status, any
network-level failure yields an `ApiError` with status 0 (as does a JSON
failure of an ok response, which the same catch-all reaches), and the
classification predicates hold exactly on their status ranges: network at 0,
client on 400-499, server from 500 up. -/
theorem claim9_api_errors :
    (∀ status jsonOk detail statusText body,
      ¬(200 ≤ status ∧ status < 300) →
        ApiClient.request
            (.response status jsonOk detail statusText body) =
          .error { status := status
                   message := ApiClient.errorDetail detail statusText }) ∧
      (∀ errText, ApiClient.request (.networkError errText) =
        .error { status := 0
                 message := ApiClient.networkErrorMessage }) ∧
      (∀ status detail statusText body, 200 ≤ status ∧ status < 300 →
        ApiClient.request (.response status false detail statusText body) =
          .error { status := 0
                   message := ApiClient.networkErrorMessage }) ∧
      (∀ e : ApiClient.ApiError,
        (e.isNetworkError = true ↔ e.status = 0) ∧
          (e.isClientError = true ↔ 400 ≤ e.status ∧ e.status < 500) ∧
          (e.isServerError = true ↔ 500 ≤ e.status)) := by
  refine ⟨?_, fun _ => rfl, ?_, ?_⟩
  · intro status jsonOk detail statusText body h
    simp only [ApiClient.request]
    rw [if_neg h]
  · intro status detail statusText body h
    simp only [ApiClient.request]
    rw [if_pos h]
    simp
  · intro e
    refine ⟨?_, ?_, ?_⟩
    · unfold ApiClient.ApiError.isNetworkError
      simp
    · unfold ApiClient.ApiError.isClientError
      simp
    · unfold ApiClient.ApiError.isServerError
      simp

/-- C9 witness: a 404 response becomes an `ApiError` with status 404 whose
classification is client error, and a network failure becomes an `ApiError`
with status 0. -/
theorem claim9_api_errors_witness :
    ApiClient.request (.response 404 true none "Not Found" "") =
        .error { status := 404, message := "Not Found" } ∧
      ApiClient.request (.networkError "fetch failed") =
        .error { status := 0
                 message := "Network error or server unavailable" } ∧
      (ApiClient.ApiError.isClientError
          { status := 404, message := "Not Found" } = true ↔
        400 ≤ 404 ∧ 404 < 500) :=
  ⟨claim9_api_errors.1 404 true none "Not Found" "" (by omega),
    claim9_api_errors.2.1 "fetch failed",
    (claim9_api_errors.2.2.2 { status := 404, message := "Not Found" }).2.1⟩

/-- C10: `submitResponse` performs exactly one network call — a POST of the
body `{is_correct, response_time_seconds}` (the elapsed seconds since the
card was displayed) to `/api/study/<sessionId>/respond` — and never a call
to `ApiClient.recordStudyResult`: every `recordStudyResult` request goes to
the distinct endpoint `/api/study/session/<sessionId>/result` with the
differently-shaped body `{flashcard_id, correct, response_time_ms}`
(milliseconds, `none` for the JS default `null`), and no such path equals
the path of any request `submitResponse` makes. -/
theorem claim10_respond_endpoint (sessionId : String) (isCorrect : Bool)
    (now startTime : ℚ) :
    StudySessionUI.submitResponse sessionId isCorrect now startTime =
        [("/api/study/" ++ sessionId ++ "/respond",
          { is_correct := isCorrect
            response_time_seconds := (now - startTime) / 1000 })] ∧
      StudySessionUI.respondBodyFields =
        ["is_correct", "response_time_seconds"] ∧
      ApiClient.resultBodyFields =
        ["flashcard_id", "correct", "response_time_ms"] ∧
      (∀ sid fid c rt,
        (ApiClient.recordStudyResult sid fid c rt).1 =
            "/api/study/session/" ++ sid ++ "/result" ∧
          (ApiClient.recordStudyResult sid fid c rt).2.response_time_ms =
            rt) ∧
      ∀ sid fid c rt req,
        req ∈ StudySessionUI.submitResponse sessionId isCorrect now
          startTime →
        (ApiClient.recordStudyResult sid fid c rt).1 ≠ req.1 := by
  refine ⟨rfl, rfl, rfl, fun sid fid c rt => ⟨rfl, rfl⟩, ?_⟩
  intro sid fid c rt req hmem
  have hreq : req = ("/api/study/" ++ sessionId ++ "/respond",
      { is_correct := isCorrect
        response_time_seconds := (now - startTime) / 1000 }) := by
    simpa [StudySessionUI.submitResponse] using hmem
  rw [hreq]
  exact Ne.symm (append_respond_ne_result ("/api/study/" ++ sessionId)
    ("/api/study/session/" ++ sid))

/-- C10 witness: for concrete identifiers, the `recordStudyResult` path is
not the path `submitResponse` posts to. -/
theorem claim10_respond_endpoint_witness :
    (ApiClient.recordStudyResult "s2" "f1" true none).1 ≠
      (("/api/study/" ++ "s1" ++ "/respond",
        ({ is_correct := true
           response_time_seconds := (2500 - 1000) / 1000 } :
          StudySessionUI.RespondBody)) :
        String × StudySessionUI.RespondBody).1 :=
  (claim10_respond_endpoint "s1" true 2500 1000).2.2.2.2 "s2" "f1" true none
    _ (by simp [StudySessionUI.submitResponse])
